import Mathlib

/-!
GameVault REST API: a shallow embedding of src/app.py.

JSON values are modelled by `JVal`; MongoDB documents are association
lists from string keys to `JVal`.  ObjectIds travel in their canonical
24-hex-character string form, and id lookup is by string equality on
that canonical form (bson's case normalisation of hand-typed ids is not
modelled).  `jwt.decode`/`jwt.encode` and bcrypt are abstracted into an
`Env` of oracle functions, since their cryptographic behaviour lives
outside the program.  An unhandled Python exception surfaces as Flask's
generic 500 error page, modelled by `crashResp`.
-/

/-- A JSON value, as produced by Flask's request.get_json(). -/
inductive JVal where
  | jnull
  | jbool (b : Bool)
  | jint (n : Int)
  | jstr (s : String)
  | jlist (xs : List JVal)
  | jdict (fs : List (String × JVal))

mutual

/-- Structural equality of JSON values (Python's == on JSON data, restricted
to comparisons between values of the same shape; the int/bool overlap of
Python's == is not needed by any handler modelled here). -/
def jvalBeq : JVal → JVal → Bool
  | .jnull, .jnull => true
  | .jbool a, .jbool b => a == b
  | .jint a, .jint b => a == b
  | .jstr a, .jstr b => a == b
  | .jlist xs, .jlist ys => jvalListBeq xs ys
  | .jdict xs, .jdict ys => jvalDictBeq xs ys
  | _, _ => false

/-- Elementwise equality of JSON arrays. -/
def jvalListBeq : List JVal → List JVal → Bool
  | [], [] => true
  | x :: xs, y :: ys => jvalBeq x y && jvalListBeq xs ys
  | _, _ => false

/-- Entrywise equality of JSON objects (order-sensitive, which is adequate
here: the handlers only ever compare documents they built themselves). -/
def jvalDictBeq : List (String × JVal) → List (String × JVal) → Bool
  | [], [] => true
  | (k1, v1) :: xs, (k2, v2) :: ys => k1 == k2 && jvalBeq v1 v2 && jvalDictBeq xs ys
  | _, _ => false

end

instance : BEq JVal := ⟨jvalBeq⟩

/-- Python truthiness (`if x:`) on a JSON value. -/
def pyTruthy : JVal → Bool
  | .jnull => false
  | .jbool b => b
  | .jint n => n != 0
  | .jstr s => !(s.isEmpty)
  | .jlist xs => !(xs.isEmpty)
  | .jdict fs => !(fs.isEmpty)

/-- dict.get(k) / `k in d`: first binding of a key in a JSON object. -/
def jlookup (fs : List (String × JVal)) (k : String) : Option JVal :=
  match fs with
  | [] => none
  | (k1, v) :: rest => if k1 == k then some v else jlookup rest k

/-- Digits of a decimal literal to a number; none when a non-digit occurs
or the literal is empty. -/
def digitsToNat (cs : List Char) : Option Nat :=
  match cs with
  | [] => none
  | _ =>
    if cs.all Char.isDigit then
      some (cs.foldl (fun a c => a * 10 + (c.toNat - 48)) 0)
    else
      none

/-- Whitespace as int(...) strips it around a numeric literal. -/
def isSpaceWS (c : Char) : Bool :=
  c == ' ' || c == '\t' || c == '\n' || c == '\r'

/-- Surrounding-whitespace removal on a character list. -/
def trimChars (cs : List Char) : List Char :=
  ((cs.dropWhile isSpaceWS).reverse.dropWhile isSpaceWS).reverse

/-- Python int(s) on a string: optional surrounding whitespace, optional
sign, then decimal digits (digit-group underscores are not modelled). -/
def parseIntStr (s : String) : Option Int :=
  match trimChars s.data with
  | '-' :: cs => (digitsToNat cs).map (fun n => -(n : Int))
  | '+' :: cs => (digitsToNat cs).map (fun n => (n : Int))
  | cs => (digitsToNat cs).map (fun n => (n : Int))

/-- Result of Python int(x) on a JSON value: `ok`, or which exception the
conversion raises.  ValueError is caught by the handlers' try/except
blocks; TypeError (int(None), int(list), ...) is not and crashes the
request.  Python bool is a subclass of int, so int(True) = 1. -/
inductive PyIntResult where
  | ok (n : Int)
  | valueError
  | typeError
deriving DecidableEq

/-- Python int(x) on a JSON value. -/
def pyToInt : JVal → PyIntResult
  | .jint n => .ok n
  | .jbool b => .ok (if b then 1 else 0)
  | .jstr s =>
    match parseIntStr s with
    | some n => .ok n
    | none => .valueError
  | .jnull => .typeError
  | .jlist _ => .typeError
  | .jdict _ => .typeError

/-- bson ObjectId.is_valid on a route string: 24 hex characters. -/
def objectId_is_valid (s : String) : Bool :=
  s.length == 24 && s.data.all (fun c => c.isDigit || ('a' ≤ c && c ≤ 'f') || ('A' ≤ c && c ≤ 'F'))

/-- An HTTP response: the jsonified body and the status code. -/
structure Resp where
  body : JVal
  status : Nat

/-- make_response(jsonify(\x7b"error": m\x7d), c). -/
def errResp (m : String) (c : Nat) : Resp :=
  { body := .jdict [("error", .jstr m)], status := c }

/-- make_response(jsonify(\x7b"message": m\x7d), c). -/
def msgResp (m : String) (c : Nat) : Resp :=
  { body := .jdict [("message", .jstr m)], status := c }

/-- Flask's generic 500 page for an exception no handler catches. -/
def crashResp : Resp :=
  { body := .jstr "Internal Server Error", status := 500 }

/-- A review embedded in a game document, with the exact keys the
add_new_review handler writes: _id, user_id, username, comment, rating.
user_id and username are copied from the token payload, hence arbitrary
JSON (none models Python None). -/
structure Review where
  rid : String
  user_id : Option JVal
  username : Option JVal
  comment : JVal
  rating : Int

/-- A game document: its ObjectId (canonical string), its scalar fields as
an association list (title, platforms, ..., developer_hq), and the two
array fields reviews and awards, split out structurally because the
review handlers manipulate them. -/
structure Game where
  gid : String
  fields : List (String × JVal)
  reviews : List Review
  awards : List JVal

/-- A user document in the users collection. -/
structure UserRec where
  uid : String
  username : JVal
  password : String
  admin : Bool

/-- The database: the games, users and blacklist collections. -/
structure DBState where
  games : List Game
  users : List UserRec
  blacklist : List String

/-- Claims carried by a decoded JWT; each is `payload.get(...)`-style
optional and arbitrary JSON. -/
structure JwtPayload where
  user_id : Option JVal
  username : Option JVal
  admin : Option JVal

/-- Outcome of jwt.decode on a presented token string. -/
inductive JwtResult where
  | ok (p : JwtPayload)
  | expired
  | invalid

/-- Oracle functions for the cryptographic collaborators: jwt decoding and
encoding and bcrypt hashing/checking.  Token expiry is folded into the
decode oracle (`expired`), since wall-clock time is outside the program. -/
structure Env where
  decode : String → JwtResult
  encodeTok : JwtPayload → String
  hashpw : String → String
  checkpw : String → String → Bool

/-- The caller identity `g.user` that the guards hand to a handler. -/
structure Caller where
  user_id : Option JVal
  username : Option JVal
  admin : JVal

/-- Result of decode_token_from_header: a payload, or the error body and
status to return. -/
inductive AuthResult where
  | ok (p : JwtPayload)
  | err (msg : String) (code : Nat)

/-- decode_token_from_header (src/app.py lines 31-45): presence check,
then blacklist membership, then signature/expiry decoding. -/
def decode_token_from_header (env : Env) (bl : List String) (tok : Option String) : AuthResult :=
  match tok with
  | none => .err "Token missing" 401
  | some t =>
    if bl.contains t then .err "Token has been blacklisted" 401
    else
      match env.decode t with
      | .ok p => .ok p
      | .expired => .err "Token expired" 401
      | .invalid => .err "Invalid token" 401

/-- token_required (lines 48-60): run the token checks, then hand g.user
to the wrapped handler. -/
def token_required (env : Env) (s : DBState) (tok : Option String)
    (h : Caller → Resp × DBState) : Resp × DBState :=
  match decode_token_from_header env s.blacklist tok with
  | .err m c => (errResp m c, s)
  | .ok p => h ⟨p.user_id, p.username, p.admin.getD (.jbool false)⟩

/-- admin_required (lines 63-77): token checks, then the admin-claim
truthiness check, then the handler with g.user.admin frozen to True. -/
def admin_required (env : Env) (s : DBState) (tok : Option String)
    (h : Caller → Resp × DBState) : Resp × DBState :=
  match decode_token_from_header env s.blacklist tok with
  | .err m c => (errResp m c, s)
  | .ok p =>
    if !(pyTruthy (p.admin.getD (.jbool false))) then
      (errResp "Admin privileges required" 403, s)
    else
      h ⟨p.user_id, p.username, .jbool true⟩

/-- logout handler body (lines 145-152), after the token_required guard;
`t` is the x-access-token header the guard already found present. -/
def logout_handler (s : DBState) (t : String) : Resp × DBState :=
  if s.blacklist.contains t then
    (msgResp "Token already blacklisted" 400, s)
  else
    (msgResp "Successfully logged out" 200, { s with blacklist := s.blacklist ++ [t] })

/-- Serialisation of an embedded review, with the exact keys written by
add_new_review and returned by the fetch handlers (ObjectId already in
string form). -/
def reviewToJson (r : Review) : JVal :=
  .jdict [("_id", .jstr r.rid), ("user_id", r.user_id.getD .jnull),
          ("username", r.username.getD .jnull), ("comment", r.comment),
          ("rating", .jint r.rating)]

/-- Serialisation of a game document as the GET handlers return it.  The
key order is normalised (_id first, reviews/awards last); the key set is
exactly that of the stored document. -/
def gameToJson (g : Game) : JVal :=
  .jdict (("_id", .jstr g.gid) :: g.fields
    ++ [("reviews", .jlist (g.reviews.map reviewToJson)), ("awards", .jlist g.awards)])

/-- Replacement of the first list element satisfying p (models an
update_one whose filter matches that element). -/
def mapFirst (p : α → Bool) (f : α → α) : List α → List α
  | [] => []
  | x :: xs => if p x then f x :: xs else x :: mapFirst p f xs

/-- Removal of the first list element satisfying p (models delete_one). -/
def removeFirst (p : α → Bool) : List α → List α
  | [] => []
  | x :: xs => if p x then xs else x :: removeFirst p xs

/-- Structural equality of reviews, used for Mongo's modified_count. -/
def reviewBeq (a b : Review) : Bool :=
  a.rid == b.rid && a.user_id == b.user_id && a.username == b.username
    && jvalBeq a.comment b.comment && a.rating == b.rating

/-- Elementwise equality of review arrays. -/
def reviewListBeq : List Review → List Review → Bool
  | [], [] => true
  | x :: xs, y :: ys => reviewBeq x y && reviewListBeq xs ys
  | _, _ => false

/-- Structural equality of whole game documents, used for Mongo's
modified_count (a $set that writes the values already present modifies
nothing). -/
def gameBeq (a b : Game) : Bool :=
  a.gid == b.gid && jvalDictBeq a.fields b.fields
    && reviewListBeq a.reviews b.reviews && jvalListBeq a.awards b.awards

/-- Query-string pagination argument: request.args.get(k, default) then
int(...); none models the ValueError branch. -/
def parsePageArg (a : Option String) (default : Int) : Option Int :=
  match a with
  | none => some default
  | some str => parseIntStr str

/-- show_all_games (lines 166-191). -/
def show_all_games (s : DBState) (pn ps : Option String) : Resp :=
  match parsePageArg pn 1, parsePageArg ps 10 with
  | some n, some z =>
    if n < 1 || z < 1 then
      errResp "Page number and page size must be positive integers" 400
    else
      let start := (z * (n - 1)).toNat
      { body := .jlist (((s.games.drop start).take z.toNat).map gameToJson), status := 200 }
  | _, _ => errResp "Page number and Page size must be integers" 400

/-- show_one_game (lines 200-214): note the 404 (not 400) on a malformed
id. -/
def show_one_game (s : DBState) (id : String) : Resp :=
  if !(objectId_is_valid id) then errResp "Invalid Game ID format" 404
  else
    match s.games.find? (fun g => g.gid == id) with
    | some g => { body := gameToJson g, status := 200 }
    | none => errResp "Invalid Game ID" 404

/-- required_fields of add_new_game (line 231). -/
def requiredGameFields : List String :=
  ["title", "platforms", "release_year", "developer", "publisher", "esrb", "genres", "modes"]

/-- Field whitelist of the edit_game update loop (line 296); textually the
same eight fields as required_fields. -/
def gameWhitelist : List String :=
  ["title", "platforms", "release_year", "developer", "publisher", "esrb", "genres", "modes"]

/-- games.find_one on title (line 236): is some stored game's title equal
to the supplied one. -/
def titleTaken (s : DBState) (t : JVal) : Bool :=
  s.games.any (fun g =>
    match jlookup g.fields "title" with
    | some t2 => jvalBeq t2 t
    | none => false)

/-- The new_game document built at lines 239-251 (while the .getD defaults
mirror data.get, the required-fields check has already ensured the eight
whitelisted keys are present). -/
def newGameFields (data : List (String × JVal)) : List (String × JVal) :=
  [("title", (jlookup data "title").getD .jnull),
   ("platforms", (jlookup data "platforms").getD (.jlist [])),
   ("release_year", (jlookup data "release_year").getD .jnull),
   ("developer", (jlookup data "developer").getD .jnull),
   ("publisher", (jlookup data "publisher").getD .jnull),
   ("rating", (jlookup data "rating").getD .jnull),
   ("esrb", (jlookup data "esrb").getD .jnull),
   ("genres", (jlookup data "genres").getD (.jlist [])),
   ("modes", (jlookup data "modes").getD (.jlist []))]

/-- The developer_hq validation of add_new_game (lines 256-263): a dict
whose type is "Point" and whose coordinates are a 2-element list of
numbers (Python bool being a subclass of int is reflected). -/
def validHqCreate : JVal → Bool
  | .jdict fs =>
    (match jlookup fs "type" with
     | some (.jstr t) => t == "Point"
     | _ => false)
    &&
    (match jlookup fs "coordinates" with
     | some (.jlist [a, b]) =>
       (match a with | .jint _ => true | .jbool _ => true | _ => false)
       && (match b with | .jint _ => true | .jbool _ => true | _ => false)
     | _ => false)
  | _ => false

/-- The developer_hq validation of edit_game (lines 302-307): same shape
check but, unlike add_new_game, no check that the two coordinates are
numeric. -/
def validHqEdit : JVal → Bool
  | .jdict fs =>
    (match jlookup fs "type" with
     | some (.jstr t) => t == "Point"
     | _ => false)
    &&
    (match jlookup fs "coordinates" with
     | some (.jlist l) => l.length == 2
     | _ => false)
  | _ => false

/-- add_new_game handler body (lines 224-273), after the admin_required
guard; freshId is the ObjectId insert_one generates. -/
def add_new_game_handler (s : DBState) (isJson : Bool) (data : List (String × JVal))
    (freshId : String) : Resp × DBState :=
  if !isJson then (errResp "Request must be JSON" 400, s)
  else if !(requiredGameFields.all (fun f => (jlookup data f).isSome)) then
    (errResp "Missing required fields" 400, s)
  else if titleTaken s ((jlookup data "title").getD .jnull) then
    (errResp "A game with that title already exists" 409, s)
  else
    let finish := fun (nf : List (String × JVal)) =>
      ({ body := .jdict [("message", .jstr "Game added successfully"),
                         ("game_id", .jstr freshId)], status := 201 },
       { s with games := s.games ++ [{ gid := freshId, fields := nf,
                                       reviews := [], awards := [] }] })
    match jlookup data "developer_hq" with
    | some hq =>
      if pyTruthy hq then
        if validHqCreate hq then finish (newGameFields data ++ [("developer_hq", hq)])
        else (errResp "Invalid GeoJSON format for developer_hq" 400, s)
      else
        finish (newGameFields data)
    | none => finish (newGameFields data)

/-- $set of a single field on a document: overwrite the key where present,
append it otherwise. -/
def setField (fs : List (String × JVal)) (k : String) (v : JVal) : List (String × JVal) :=
  if (jlookup fs k).isSome then
    fs.map (fun kv => if kv.1 == k then (kv.1, v) else kv)
  else
    fs ++ [(k, v)]

/-- $set of an update document, field by field. -/
def setFields (fs upd : List (String × JVal)) : List (String × JVal) :=
  upd.foldl (fun acc kv => setField acc kv.1 kv.2) fs

/-- The update_fields collected by the edit_game whitelist loop
(lines 294-298). -/
def collectUpdateFields (data : List (String × JVal)) : List (String × JVal) :=
  gameWhitelist.filterMap (fun f => (jlookup data f).map (fun v => (f, v)))

/-- edit_game handler body (lines 284-320), after the admin_required
guard.  modified_count is 0 both when no document matched the id and when
the $set wrote only the values already present; either way the handler
answers 500 "Game update failed". -/
def edit_game_handler (s : DBState) (id : String) (isJson : Bool)
    (data : List (String × JVal)) : Resp × DBState :=
  if !isJson then (errResp "Request must be JSON" 400, s)
  else if !(objectId_is_valid id) then (errResp "Invalid Game ID format" 400, s)
  else
    let base := collectUpdateFields data
    let hqChecked : Option (List (String × JVal)) :=
      match jlookup data "developer_hq" with
      | some hq => if validHqEdit hq then some (base ++ [("developer_hq", hq)]) else none
      | none => some base
    match hqChecked with
    | none => (errResp "Invalid GeoJSON format" 400, s)
    | some upd =>
      if upd.isEmpty then (errResp "No valid update fields provided" 400, s)
      else
        match s.games.find? (fun g => g.gid == id) with
        | none => (errResp "Game update failed" 500, s)
        | some g =>
          let g2 := { g with fields := setFields g.fields upd }
          let gs := mapFirst (fun x => x.gid == id)
            (fun x => { x with fields := setFields x.fields upd }) s.games
          let s2 := { s with games := gs }
          if gameBeq g g2 then (errResp "Game update failed" 500, s2)
          else (msgResp "Game updated successfully" 200, s2)

/-- delete_game handler body (lines 331-342), after the admin_required
guard. -/
def delete_game_handler (s : DBState) (id : String) : Resp × DBState :=
  if !(objectId_is_valid id) then (errResp "Invalid Game ID format" 400, s)
  else
    let deleted : Nat := if s.games.any (fun g => g.gid == id) then 1 else 0
    let s2 := { s with games := removeFirst (fun g => g.gid == id) s.games }
    if deleted == 1 then ({ body := .jdict [], status := 204 }, s2)
    else (errResp "Invalid Game ID" 404, s2)

/-- fetch_all_reviews (lines 351-389): read-only, so it returns only a
response. -/
def fetch_all_reviews (s : DBState) (id : String) (pn ps : Option String) : Resp :=
  if !(objectId_is_valid id) then errResp "Invalid Game ID format" 400
  else
    match parsePageArg pn 1, parsePageArg ps 10 with
    | some n, some z =>
      if n < 1 || z < 1 then
        errResp "Page number and page size must be positive integers" 400
      else
        match s.games.find? (fun g => g.gid == id) with
        | none => errResp "Invalid Game ID" 404
        | some g =>
          if g.reviews.length == 0 then errResp "No reviews found" 404
          else
            let start := (z * (n - 1)).toNat
            { body := .jlist (((g.reviews.map reviewToJson).drop start).take z.toNat),
              status := 200 }
    | _, _ => errResp "Page number and page size must be integers" 400

/-- add_new_review handler body (lines 400-434), after the token_required
guard; freshRid is the ObjectId generated for the new review. -/
def add_new_review_handler (s : DBState) (c : Caller) (gid : String) (isJson : Bool)
    (data : List (String × JVal)) (freshRid : String) : Resp × DBState :=
  if !(objectId_is_valid gid) then (errResp "Invalid Game ID format" 400, s)
  else if !isJson then (errResp "Request must be JSON" 400, s)
  else if !((jlookup data "comment").isSome && (jlookup data "rating").isSome) then
    (errResp "Comment and rating are required" 400, s)
  else
    match pyToInt ((jlookup data "rating").getD .jnull) with
    | .typeError => (crashResp, s)
    | .valueError => (errResp "Rating must be a number" 400, s)
    | .ok n =>
      if n < 1 || n > 10 then (errResp "Rating must be between 1 and 10" 400, s)
      else
        match s.games.find? (fun g => g.gid == gid) with
        | none => (errResp "Game not found" 404, s)
        | some _ =>
          let nr : Review := { rid := freshRid, user_id := c.user_id,
                               username := c.username,
                               comment := (jlookup data "comment").getD .jnull,
                               rating := n }
          let gs := mapFirst (fun g => g.gid == gid)
            (fun g => { g with reviews := g.reviews ++ [nr] }) s.games
          (msgResp "Review added successfully" 201, { s with games := gs })

/-- fetch_one_review (lines 444-474); nothing in the modelled body can
raise, so the catch-all except branch is dead here. -/
def fetch_one_review (s : DBState) (gid rid : String) : Resp :=
  if !(objectId_is_valid gid) then errResp "Invalid Game ID format" 400
  else if !(objectId_is_valid rid) then errResp "Invalid Review ID format" 400
  else
    match s.games.find? (fun g => g.gid == gid) with
    | none => errResp "Invalid Game ID" 404
    | some g =>
      match g.reviews.find? (fun r => r.rid == rid) with
      | none => errResp "Invalid Review ID" 404
      | some r => { body := reviewToJson r, status := 200 }

/-- edit_review handler body (lines 484-525), after the token_required
guard.  The positional update targets the first game matching both the
game id and the review id, and inside it the first review with that id;
its result is never inspected, so the tail always answers 200. -/
def edit_review_handler (s : DBState) (c : Caller) (gid rid : String) (isJson : Bool)
    (data : List (String × JVal)) : Resp × DBState :=
  if !isJson then (errResp "Request must be JSON" 400, s)
  else if !(objectId_is_valid gid) || !(objectId_is_valid rid) then
    (errResp "Invalid ID format" 400, s)
  else
    match s.games.find? (fun g => g.gid == gid) with
    | none => (errResp "Game not found" 404, s)
    | some g =>
      match g.reviews.find? (fun r => r.rid == rid) with
      | none => (errResp "Review not found" 404, s)
      | some r =>
        if !(pyTruthy c.admin) && !(r.user_id == c.user_id) then
          (errResp "Not authorized to edit this review" 403, s)
        else
          let cOpt := jlookup data "comment"
          let finish := fun (nOpt : Option Int) =>
            if cOpt.isNone && nOpt.isNone then (errResp "No valid fields provided" 400, s)
            else
              let gs := mapFirst
                (fun g2 => g2.gid == gid && g2.reviews.any (fun r2 => r2.rid == rid))
                (fun g2 =>
                  let rs := mapFirst (fun r2 => r2.rid == rid)
                    (fun r2 => { r2 with comment := cOpt.getD r2.comment,
                                         rating := nOpt.getD r2.rating })
                    g2.reviews
                  { g2 with reviews := rs })
                s.games
              (msgResp "Review updated successfully" 200, { s with games := gs })
          match jlookup data "rating" with
          | none => finish none
          | some rv =>
            match pyToInt rv with
            | .typeError => (crashResp, s)
            | .valueError => (errResp "Rating must be a number" 400, s)
            | .ok n =>
              if n < 1 || n > 10 then (errResp "Rating must be between 1 and 10" 400, s)
              else finish (some n)

/-- The tail of delete_review (lines 559-562): inspect the update's
modified_count and answer 200 only when it is exactly 1. -/
def delete_finish (modifiedCount : Nat) : Resp :=
  if modifiedCount == 1 then msgResp "Review deleted successfully" 200
  else errResp "Delete failed" 500

/-- delete_review handler body (lines 537-562), after the token_required
guard.  The $pull removes every review whose _id matches inside the first
game matching the id; the document counts as modified when at least one
element went away. -/
def delete_review_handler (s : DBState) (c : Caller) (gid rid : String) : Resp × DBState :=
  if !(objectId_is_valid gid) || !(objectId_is_valid rid) then
    (errResp "Invalid ID format" 400, s)
  else
    match s.games.find? (fun g => g.gid == gid) with
    | none => (errResp "Game not found" 404, s)
    | some g =>
      match g.reviews.find? (fun r => r.rid == rid) with
      | none => (errResp "Review not found" 404, s)
      | some r =>
        if !(pyTruthy c.admin) && !(r.user_id == c.user_id) then
          (errResp "Not authorized to delete this review" 403, s)
        else
          let newReviews := g.reviews.filter (fun r2 => !(r2.rid == rid))
          let modified : Nat := if newReviews.length == g.reviews.length then 0 else 1
          let gs := mapFirst (fun g2 => g2.gid == gid)
            (fun g2 => { g2 with reviews := g2.reviews.filter (fun r2 => !(r2.rid == rid)) })
            s.games
          (delete_finish modified, { s with games := gs })

/-- The JWT claims the two login paths encode for a user (lines 114-119 and
133-138); the exp claim lives in the decode oracle. -/
def tokenPayloadOf (u : UserRec) : JwtPayload :=
  { user_id := some (.jstr u.uid), username := some u.username,
    admin := some (.jbool u.admin) }

/-- register (lines 81-104); freshUid is the ObjectId insert_one generates.
A payload of none models an absent/empty JSON body, caught by the
`not data` test; a non-string password crashes at .encode("utf-8"). -/
def register_handler (env : Env) (s : DBState) (body : Option (List (String × JVal)))
    (freshUid : String) : Resp × DBState :=
  match body with
  | none => (errResp "Username and password are required" 400, s)
  | some data =>
    match jlookup data "username", jlookup data "password" with
    | some uv, some pv =>
      if !(pyTruthy uv) || !(pyTruthy pv) then
        (errResp "Username and password are required" 400, s)
      else
        match pv with
        | .jstr pw =>
          if s.users.any (fun u => jvalBeq u.username uv) then
            (errResp "Username already exists" 409, s)
          else
            (msgResp "User registered successfully" 201,
             { s with users := s.users ++ [{ uid := freshUid, username := uv,
                                             password := env.hashpw pw, admin := false }] })
        | _ => (crashResp, s)
    | _, _ => (errResp "Username and password are required" 400, s)

/-- The JSON-body fallback of login (lines 125-140). -/
def login_json_path (env : Env) (s : DBState) (body : Option (List (String × JVal))) : Resp :=
  match body with
  | none => errResp "Username and password required" 400
  | some data =>
    match jlookup data "username", jlookup data "password" with
    | some uv, some pv =>
      if !(pyTruthy uv) || !(pyTruthy pv) then errResp "Username and password required" 400
      else
        match s.users.find? (fun u => jvalBeq u.username uv) with
        | none => errResp "Invalid credentials" 401
        | some u =>
          match pv with
          | .jstr pw =>
            if env.checkpw pw u.password then
              { body := .jdict [("token", .jstr (env.encodeTok (tokenPayloadOf u)))],
                status := 200 }
            else errResp "Invalid credentials" 401
          | _ => crashResp
    | _, _ => errResp "Username and password required" 400

/-- login (lines 107-140): Basic Auth first when both fields are nonempty,
otherwise the JSON fallback.  Read-only, so it returns just a response. -/
def login_handler (env : Env) (s : DBState) (auth : Option (String × String))
    (body : Option (List (String × JVal))) : Resp :=
  match auth with
  | some (au, ap) =>
    if !(au.isEmpty) && !(ap.isEmpty) then
      match s.users.find? (fun u => jvalBeq u.username (.jstr au)) with
      | some u =>
        if env.checkpw ap u.password then
          { body := .jdict [("token", .jstr (env.encodeTok (tokenPayloadOf u)))],
            status := 200 }
        else errResp "Invalid credentials" 401
      | none => errResp "Invalid credentials" 401
    else login_json_path env s body
  | none => login_json_path env s body

/-- The full logout route (guard at line 144 plus handler): the
token_required checks run first, then the handler re-reads the same
x-access-token header.  After a successful guard the header is known to
be present, so the none branch is unreachable. -/
def logoutRoute (env : Env) (s : DBState) (tok : Option String) : Resp × DBState :=
  match decode_token_from_header env s.blacklist tok with
  | .err m c => (errResp m c, s)
  | .ok _ =>
    match tok with
    | some t => logout_handler s t
    | none => (errResp "Token missing" 401, s)

/-- One inbound HTTP request to the service.  The two read-only
aggregation routes (award leaderboard, closest developer HQ) are omitted:
no claim concerns them and they perform no writes.  The fresh ObjectIds
that insert_one would generate arrive as request data, modelling the
driver's id generation. -/
inductive Req where
  | register (body : Option (List (String × JVal))) (freshUid : String)
  | login (auth : Option (String × String)) (body : Option (List (String × JVal)))
  | logout (tok : Option String)
  | listGames (pn ps : Option String)
  | getGame (id : String)
  | createGame (tok : Option String) (isJson : Bool) (body : List (String × JVal))
      (freshId : String)
  | updateGame (tok : Option String) (id : String) (isJson : Bool)
      (body : List (String × JVal))
  | deleteGame (tok : Option String) (id : String)
  | listReviews (gid : String) (pn ps : Option String)
  | getReview (gid rid : String)
  | createReview (tok : Option String) (gid : String) (isJson : Bool)
      (body : List (String × JVal)) (freshRid : String)
  | updateReview (tok : Option String) (gid rid : String) (isJson : Bool)
      (body : List (String × JVal))
  | deleteReview (tok : Option String) (gid rid : String)

/-- The service: route dispatch including the authentication guards. -/
def step (env : Env) (s : DBState) (r : Req) : Resp × DBState :=
  match r with
  | .register body freshUid => register_handler env s body freshUid
  | .login auth body => (login_handler env s auth body, s)
  | .logout tok => logoutRoute env s tok
  | .listGames pn ps => (show_all_games s pn ps, s)
  | .getGame id => (show_one_game s id, s)
  | .createGame tok isJson body freshId =>
    admin_required env s tok (fun _ => add_new_game_handler s isJson body freshId)
  | .updateGame tok id isJson body =>
    admin_required env s tok (fun _ => edit_game_handler s id isJson body)
  | .deleteGame tok id =>
    admin_required env s tok (fun _ => delete_game_handler s id)
  | .listReviews gid pn ps => (fetch_all_reviews s gid pn ps, s)
  | .getReview gid rid => (fetch_one_review s gid rid, s)
  | .createReview tok gid isJson body freshRid =>
    token_required env s tok (fun c => add_new_review_handler s c gid isJson body freshRid)
  | .updateReview tok gid rid isJson body =>
    token_required env s tok (fun c => edit_review_handler s c gid rid isJson body)
  | .deleteReview tok gid rid =>
    token_required env s tok (fun c => delete_review_handler s c gid rid)

/-- The database state after a sequence of requests. -/
def steps (env : Env) (s : DBState) (rs : List Req) : DBState :=
  rs.foldl (fun s2 r => (step env s2 r).2) s

/-- The x-access-token header of a request to an authenticated route
(none for the unauthenticated routes). -/
def reqToken : Req → Option String
  | .logout tok => tok
  | .createGame tok _ _ _ => tok
  | .updateGame tok _ _ _ => tok
  | .deleteGame tok _ => tok
  | .createReview tok _ _ _ _ => tok
  | .updateReview tok _ _ _ _ => tok
  | .deleteReview tok _ _ => tok
  | _ => none

/-- Membership in a string list survives appending entries on the right. -/
theorem contains_append_left (l l2 : List String) (x : String)
    (h : l.contains x = true) : (l ++ l2).contains x = true := by
  simp only [List.contains, List.elem_eq_mem, decide_eq_true_eq] at h ⊢
  exact List.mem_append_left l2 h

/-- A freshly appended entry is a member. -/
theorem contains_append_right (l : List String) (t : String) :
    (l ++ [t]).contains t = true := by
  simp only [List.contains, List.elem_eq_mem, decide_eq_true_eq]
  exact List.mem_append_right l (List.mem_singleton_self t)

/-- register touches only the users collection. -/
theorem register_blacklist_eq (env : Env) (s : DBState)
    (body : Option (List (String × JVal))) (uid : String) :
    ((register_handler env s body uid).2).blacklist = s.blacklist := by
  unfold register_handler
  try dsimp only
  (repeat' split) <;> rfl

/-- add_new_game touches only the games collection. -/
theorem add_new_game_blacklist_eq (s : DBState) (isJson : Bool)
    (data : List (String × JVal)) (fid : String) :
    ((add_new_game_handler s isJson data fid).2).blacklist = s.blacklist := by
  unfold add_new_game_handler
  try dsimp only
  (repeat' split) <;> rfl

/-- edit_game touches only the games collection. -/
theorem edit_game_blacklist_eq (s : DBState) (id : String) (isJson : Bool)
    (data : List (String × JVal)) :
    ((edit_game_handler s id isJson data).2).blacklist = s.blacklist := by
  unfold edit_game_handler
  try dsimp only
  (repeat' split) <;> rfl

/-- delete_game touches only the games collection. -/
theorem delete_game_blacklist_eq (s : DBState) (id : String) :
    ((delete_game_handler s id).2).blacklist = s.blacklist := by
  unfold delete_game_handler
  try dsimp only
  (repeat' split) <;> rfl

/-- add_new_review touches only the games collection. -/
theorem add_new_review_blacklist_eq (s : DBState) (c : Caller) (gid : String)
    (isJson : Bool) (data : List (String × JVal)) (rid : String) :
    ((add_new_review_handler s c gid isJson data rid).2).blacklist = s.blacklist := by
  unfold add_new_review_handler
  try dsimp only
  (repeat' split) <;> rfl

/-- edit_review touches only the games collection. -/
theorem edit_review_blacklist_eq (s : DBState) (c : Caller) (gid rid : String)
    (isJson : Bool) (data : List (String × JVal)) :
    ((edit_review_handler s c gid rid isJson data).2).blacklist = s.blacklist := by
  unfold edit_review_handler
  try dsimp only
  (repeat' split) <;> rfl

/-- delete_review touches only the games collection. -/
theorem delete_review_blacklist_eq (s : DBState) (c : Caller) (gid rid : String) :
    ((delete_review_handler s c gid rid).2).blacklist = s.blacklist := by
  unfold delete_review_handler
  try dsimp only
  (repeat' split) <;> rfl

/-- token_required preserves whatever blacklist its handler preserves. -/
theorem token_required_blacklist_eq (env : Env) (s : DBState) (tok : Option String)
    (h : Caller → Resp × DBState)
    (hh : ∀ c, ((h c).2).blacklist = s.blacklist) :
    ((token_required env s tok h).2).blacklist = s.blacklist := by
  unfold token_required
  split
  · rfl
  · apply hh

/-- admin_required preserves whatever blacklist its handler preserves. -/
theorem admin_required_blacklist_eq (env : Env) (s : DBState) (tok : Option String)
    (h : Caller → Resp × DBState)
    (hh : ∀ c, ((h c).2).blacklist = s.blacklist) :
    ((admin_required env s tok h).2).blacklist = s.blacklist := by
  unfold admin_required
  split
  · rfl
  · split
    · rfl
    · apply hh

/-- A concrete oracle environment for witness instantiations: one token
decodes to a valid non-admin payload, one to an admin payload, one is
expired, everything else is malformed. -/
def envA : Env :=
  { decode := fun t =>
      if t == "tok-user" then
        .ok { user_id := some (.jstr "u1"), username := some (.jstr "alice"),
              admin := some (.jbool false) }
      else if t == "tok-admin" then
        .ok { user_id := some (.jstr "u9"), username := some (.jstr "root"),
              admin := some (.jbool true) }
      else if t == "tok-expired" then .expired
      else .invalid,
    encodeTok := fun _ => "minted",
    hashpw := fun p => p,
    checkpw := fun a b => a == b }

/-- An empty database for witness instantiations. -/
def dbEmpty : DBState := { games := [], users := [], blacklist := [] }

/-- A database whose blacklist already holds the valid token tok-user. -/
def dbBl : DBState := { games := [], users := [], blacklist := ["tok-user"] }

/-- C1: for every request to a route guarded by token_required or
admin_required, validation checks presence, then blacklist membership,
then signature/expiry, answering 401 with "Token missing" for an absent
header, "Token has been blacklisted" for a blacklisted one (whatever
jwt.decode would have said), "Token expired" for a valid-but-expired
signature and "Invalid token" for a malformed or badly signed one. -/
theorem C1_token_validation_order (env : Env) (s : DBState)
    (hT hA : Caller → Resp × DBState) :
    (token_required env s none hT = (errResp "Token missing" 401, s)
      ∧ admin_required env s none hA = (errResp "Token missing" 401, s))
    ∧ (∀ t, s.blacklist.contains t = true →
        token_required env s (some t) hT = (errResp "Token has been blacklisted" 401, s)
          ∧ admin_required env s (some t) hA = (errResp "Token has been blacklisted" 401, s))
    ∧ (∀ t, s.blacklist.contains t = false → env.decode t = .expired →
        token_required env s (some t) hT = (errResp "Token expired" 401, s)
          ∧ admin_required env s (some t) hA = (errResp "Token expired" 401, s))
    ∧ (∀ t, s.blacklist.contains t = false → env.decode t = .invalid →
        token_required env s (some t) hT = (errResp "Invalid token" 401, s)
          ∧ admin_required env s (some t) hA = (errResp "Invalid token" 401, s)) := by
  refine ⟨⟨rfl, rfl⟩, ?_, ?_, ?_⟩
  · intro t ht
    have ht2 : t ∈ s.blacklist := by simpa [List.contains, List.elem_eq_mem] using ht
    constructor <;> simp [token_required, admin_required, decode_token_from_header, ht2]
  · intro t ht hd
    have ht2 : t ∉ s.blacklist := by simpa [List.contains, List.elem_eq_mem] using ht
    constructor <;> simp [token_required, admin_required, decode_token_from_header, ht2, hd]
  · intro t ht hd
    have ht2 : t ∉ s.blacklist := by simpa [List.contains, List.elem_eq_mem] using ht
    constructor <;> simp [token_required, admin_required, decode_token_from_header, ht2, hd]

/-- C1 witness: the four failure shapes at concrete inputs. -/
theorem C1_token_validation_order_witness :
    (token_required envA dbBl (some "tok-user") (fun _ => (msgResp "hi" 200, dbBl))
      = (errResp "Token has been blacklisted" 401, dbBl))
    ∧ (token_required envA dbEmpty (some "tok-expired") (fun _ => (msgResp "hi" 200, dbEmpty))
      = (errResp "Token expired" 401, dbEmpty))
    ∧ (admin_required envA dbEmpty (some "garbage") (fun _ => (msgResp "hi" 200, dbEmpty))
      = (errResp "Invalid token" 401, dbEmpty)) :=
  ⟨((C1_token_validation_order envA dbBl (fun _ => (msgResp "hi" 200, dbBl))
        (fun _ => (msgResp "hi" 200, dbBl))).2.1 "tok-user" (by decide)).1,
   ((C1_token_validation_order envA dbEmpty (fun _ => (msgResp "hi" 200, dbEmpty))
        (fun _ => (msgResp "hi" 200, dbEmpty))).2.2.1 "tok-expired" (by decide) rfl).1,
   ((C1_token_validation_order envA dbEmpty (fun _ => (msgResp "hi" 200, dbEmpty))
        (fun _ => (msgResp "hi" 200, dbEmpty))).2.2.2 "garbage" (by decide) rfl).2⟩

/-- Every error decode_token_from_header produces carries status 401. -/
theorem decode_err_code (env : Env) (bl : List String) (tok : Option String)
    (m : String) (c : Nat) :
    decode_token_from_header env bl tok = .err m c → c = 401 := by
  unfold decode_token_from_header
  (repeat' split) <;> intro h <;> first
    | (injection h with h1 h2; exact h2.symm)
    | exact AuthResult.noConfusion h

/-- C2: once a successful logout has put a token in the blacklist it stays
there: no request ever removes a blacklist entry (first two conjuncts,
single step and any request sequence), a 200 logout leaves the token
blacklisted (third), and any authenticated route presented a blacklisted
token answers exactly Unauthorized "Token has been blacklisted" with the
state untouched, regardless of signature or expiry (fourth). -/
theorem C2_blacklist_permanent (env : Env) :
    (∀ s r x, s.blacklist.contains x = true → ((step env s r).2).blacklist.contains x = true)
    ∧ (∀ s rs x, s.blacklist.contains x = true → (steps env s rs).blacklist.contains x = true)
    ∧ (∀ s t r1 s1, step env s (.logout (some t)) = (r1, s1) → r1.status = 200 →
        s1.blacklist.contains t = true)
    ∧ (∀ s req t, reqToken req = some t → s.blacklist.contains t = true →
        step env s req = (errResp "Token has been blacklisted" 401, s)) := by
  have mono : ∀ s r x, s.blacklist.contains x = true →
      ((step env s r).2).blacklist.contains x = true := by
    intro s r x hx
    cases r with
    | register body uid =>
      simp only [step]
      rw [register_blacklist_eq]; exact hx
    | login auth body => exact hx
    | logout tok =>
      simp only [step, logoutRoute]
      split
      · exact hx
      · split
        · unfold logout_handler
          split
          · exact hx
          · exact contains_append_left _ _ _ hx
        · exact hx
    | listGames pn ps => exact hx
    | getGame id => exact hx
    | createGame tok isJson body fid =>
      simp only [step]
      rw [admin_required_blacklist_eq]
      · exact hx
      · intro c; exact add_new_game_blacklist_eq s isJson body fid
    | updateGame tok id isJson body =>
      simp only [step]
      rw [admin_required_blacklist_eq]
      · exact hx
      · intro c; exact edit_game_blacklist_eq s id isJson body
    | deleteGame tok id =>
      simp only [step]
      rw [admin_required_blacklist_eq]
      · exact hx
      · intro c; exact delete_game_blacklist_eq s id
    | listReviews gid pn ps => exact hx
    | getReview gid rid => exact hx
    | createReview tok gid isJson body rid =>
      simp only [step]
      rw [token_required_blacklist_eq]
      · exact hx
      · intro c; exact add_new_review_blacklist_eq s c gid isJson body rid
    | updateReview tok gid rid isJson body =>
      simp only [step]
      rw [token_required_blacklist_eq]
      · exact hx
      · intro c; exact edit_review_blacklist_eq s c gid rid isJson body
    | deleteReview tok gid rid =>
      simp only [step]
      rw [token_required_blacklist_eq]
      · exact hx
      · intro c; exact delete_review_blacklist_eq s c gid rid
  refine ⟨mono, ?_, ?_, ?_⟩
  · intro s rs x
    induction rs generalizing s with
    | nil => intro hx; exact hx
    | cons r rest ih => intro hx; exact ih _ (mono s r x hx)
  · intro s t r1 s1 hstep h200
    simp only [step, logoutRoute] at hstep
    split at hstep
    case h_1 m c heq =>
      have hc := decode_err_code env s.blacklist (some t) m c heq
      subst hc
      injection hstep with h1 h2
      rw [← h1] at h200
      simp [errResp] at h200
    case h_2 p heq =>
      unfold logout_handler at hstep
      split at hstep
      · injection hstep with h1 h2
        rw [← h1] at h200
        simp [msgResp] at h200
      · injection hstep with h1 h2
        rw [← h2]
        exact contains_append_right s.blacklist t
  · intro s req t htok hbl
    have hbl2 : t ∈ s.blacklist := by simpa [List.contains, List.elem_eq_mem] using hbl
    cases req with
    | register body uid => exact absurd htok (by simp [reqToken])
    | login auth body => exact absurd htok (by simp [reqToken])
    | listGames pn ps => exact absurd htok (by simp [reqToken])
    | getGame id => exact absurd htok (by simp [reqToken])
    | listReviews gid pn ps => exact absurd htok (by simp [reqToken])
    | getReview gid rid => exact absurd htok (by simp [reqToken])
    | logout tok =>
      simp only [reqToken] at htok
      subst htok
      simp [step, logoutRoute, decode_token_from_header, hbl2]
    | createGame tok isJson body fid =>
      simp only [reqToken] at htok
      subst htok
      simp [step, admin_required, decode_token_from_header, hbl2]
    | updateGame tok id isJson body =>
      simp only [reqToken] at htok
      subst htok
      simp [step, admin_required, decode_token_from_header, hbl2]
    | deleteGame tok id =>
      simp only [reqToken] at htok
      subst htok
      simp [step, admin_required, decode_token_from_header, hbl2]
    | createReview tok gid isJson body rid =>
      simp only [reqToken] at htok
      subst htok
      simp [step, token_required, decode_token_from_header, hbl2]
    | updateReview tok gid rid isJson body =>
      simp only [reqToken] at htok
      subst htok
      simp [step, token_required, decode_token_from_header, hbl2]
    | deleteReview tok gid rid =>
      simp only [reqToken] at htok
      subst htok
      simp [step, token_required, decode_token_from_header, hbl2]

/-- C2 witness: after a successful logout of the valid token tok-user on
an empty database the token is blacklisted, and a later authenticated
request presenting it is rejected as blacklisted. -/
theorem C2_blacklist_permanent_witness :
    ((steps envA ((step envA dbEmpty (.logout (some "tok-user"))).2) []).blacklist.contains
      "tok-user" = true)
    ∧ (step envA dbBl (.deleteReview (some "tok-user") "a" "b")
        = (errResp "Token has been blacklisted" 401, dbBl)) :=
  ⟨(C2_blacklist_permanent envA).2.1 _ [] "tok-user"
      ((C2_blacklist_permanent envA).2.2.1 dbEmpty "tok-user" _ _ rfl rfl),
   (C2_blacklist_permanent envA).2.2.2 dbBl (.deleteReview (some "tok-user") "a" "b")
      "tok-user" rfl (by decide)⟩

/-- De Morgan form of the ownership test the review handlers run. -/
theorem ownership_cond (a b : Bool) : (!a && !b) = !(a || b) := by
  cases a <;> cases b <;> rfl

/-- C3: for an authenticated caller and an existing review in an existing
game, edit and delete pass the authorization check exactly when the
caller is admin or owns the review; otherwise both answer Forbidden 403
with their "Not authorized" bodies and leave the database untouched. -/
theorem C3_review_ownership (s : DBState) (c : Caller) (gid rid : String)
    (data : List (String × JVal)) (g : Game) (r : Review)
    (hgid : objectId_is_valid gid = true) (hrid : objectId_is_valid rid = true)
    (hg : s.games.find? (fun g2 => g2.gid == gid) = some g)
    (hr : g.reviews.find? (fun r2 => r2.rid == rid) = some r) :
    (((edit_review_handler s c gid rid true data).1.status = 403)
        ↔ (pyTruthy c.admin || r.user_id == c.user_id) = false)
    ∧ ((pyTruthy c.admin || r.user_id == c.user_id) = false →
        edit_review_handler s c gid rid true data
          = (errResp "Not authorized to edit this review" 403, s))
    ∧ (((delete_review_handler s c gid rid).1.status = 403)
        ↔ (pyTruthy c.admin || r.user_id == c.user_id) = false)
    ∧ ((pyTruthy c.admin || r.user_id == c.user_id) = false →
        delete_review_handler s c gid rid
          = (errResp "Not authorized to delete this review" 403, s)) := by
  cases hb : (pyTruthy c.admin || r.user_id == c.user_id) with
  | false =>
    have hforb : (!(pyTruthy c.admin) && !(r.user_id == c.user_id)) = true := by
      rw [ownership_cond, hb]; rfl
    have he : edit_review_handler s c gid rid true data
        = (errResp "Not authorized to edit this review" 403, s) := by
      unfold edit_review_handler
      simp [hgid, hrid, hg, hr, hforb]
    have hd : delete_review_handler s c gid rid
        = (errResp "Not authorized to delete this review" 403, s) := by
      unfold delete_review_handler
      simp [hgid, hrid, hg, hr, hforb]
    exact ⟨by simp [he, errResp], fun _ => he, by simp [hd, errResp], fun _ => hd⟩
  | true =>
    have hforb : (!(pyTruthy c.admin) && !(r.user_id == c.user_id)) = false := by
      rw [ownership_cond, hb]; rfl
    have he : (edit_review_handler s c gid rid true data).1.status ≠ 403 := by
      unfold edit_review_handler
      simp only [hgid, hrid, hg, hr, hforb, Bool.not_true, Bool.or_self, Bool.not_false,
        Bool.false_and, Bool.and_false, if_false, Bool.true_and]
      (repeat' split) <;> simp [errResp, msgResp, crashResp]
    have hd : (delete_review_handler s c gid rid).1.status ≠ 403 := by
      unfold delete_review_handler delete_finish
      simp only [hgid, hrid, hg, hr, hforb, Bool.not_true, Bool.or_self, Bool.not_false,
        Bool.false_and, Bool.and_false, if_false, Bool.true_and]
      (repeat' split) <;> simp [errResp, msgResp, crashResp]
    refine ⟨by simp [he], fun h => absurd h (by simp), by simp [hd], fun h => absurd h (by simp)⟩

/-- A stored review owned by user u1 for witness instantiations. -/
def reviewW : Review :=
  { rid := "bbbbbbbbbbbbbbbbbbbbbbbb", user_id := some (.jstr "u1"),
    username := some (.jstr "alice"), comment := .jstr "fun", rating := 8 }

/-- A stored game holding reviewW for witness instantiations. -/
def gameW : Game :=
  { gid := "aaaaaaaaaaaaaaaaaaaaaaaa", fields := [("title", .jstr "Halo")],
    reviews := [reviewW], awards := [] }

/-- A database holding just gameW. -/
def dbW : DBState := { games := [gameW], users := [], blacklist := [] }

/-- A non-admin caller who is not the owner of reviewW. -/
def callerB : Caller :=
  { user_id := some (.jstr "u2"), username := some (.jstr "bob"), admin := .jbool false }

/-- C3 witness: the non-owner non-admin caller is refused with 403 and the
database is unchanged. -/
theorem C3_review_ownership_witness :
    edit_review_handler dbW callerB "aaaaaaaaaaaaaaaaaaaaaaaa" "bbbbbbbbbbbbbbbbbbbbbbbb" true []
      = (errResp "Not authorized to edit this review" 403, dbW) :=
  (C3_review_ownership dbW callerB "aaaaaaaaaaaaaaaaaaaaaaaa" "bbbbbbbbbbbbbbbbbbbbbbbb" []
    gameW reviewW (by decide) (by decide) rfl rfl).2.1 (by decide)

/-- C4 counterexample: presenting an already-blacklisted token to the
logout route yields the guard's 401 "Token has been blacklisted", never
the handler's 400 "Token already blacklisted" the claim describes. -/
theorem C4_revoke_counterexample :
    (step envA dbBl (.logout (some "tok-user"))).1
      = errResp "Token has been blacklisted" 401
    ∧ ¬ ((step envA dbBl (.logout (some "tok-user"))).1.status = 400) := by
  exact ⟨rfl, by decide⟩

/-- C4 amended: a token already in the blacklist is rejected upstream by
the token_required guard with Unauthorized 401 "Token has been
blacklisted" (so the handler's own 400 "Token already blacklisted"
branch is unreachable in sequential execution); a present, unrevoked,
decodable token is inserted into the blacklist with success 200. -/
theorem C4_revoke (env : Env) (s : DBState) (t : String) :
    (s.blacklist.contains t = true →
      step env s (.logout (some t)) = (errResp "Token has been blacklisted" 401, s))
    ∧ (∀ p, s.blacklist.contains t = false → env.decode t = .ok p →
      step env s (.logout (some t))
        = (msgResp "Successfully logged out" 200,
           { s with blacklist := s.blacklist ++ [t] })) := by
  constructor
  · intro hbl
    have hbl2 : t ∈ s.blacklist := by simpa [List.contains, List.elem_eq_mem] using hbl
    simp [step, logoutRoute, decode_token_from_header, hbl2]
  · intro p hbl hd
    have hbl2 : t ∉ s.blacklist := by simpa [List.contains, List.elem_eq_mem] using hbl
    simp [step, logoutRoute, decode_token_from_header, logout_handler, hbl2, hd]

/-- C4 witness: both amended branches at concrete inputs. -/
theorem C4_revoke_witness :
    (step envA dbBl (.logout (some "tok-user"))
      = (errResp "Token has been blacklisted" 401, dbBl))
    ∧ (step envA dbEmpty (.logout (some "tok-user"))
      = (msgResp "Successfully logged out" 200,
         { dbEmpty with blacklist := dbEmpty.blacklist ++ ["tok-user"] })) :=
  ⟨(C4_revoke envA dbBl "tok-user").1 (by decide),
   (C4_revoke envA dbEmpty "tok-user").2
     { user_id := some (.jstr "u1"), username := some (.jstr "alice"),
       admin := some (.jbool false) } (by decide) rfl⟩

/-- C5 counterexample: updating a well-formed id that is absent from the
games collection, with a recognized field supplied, answers 500 "Game
update failed", not the NotFound 404 the claim states. -/
theorem C5_update_absent_counterexample :
    edit_game_handler dbEmpty "0123456789abcdef01234567" true [("title", .jstr "X")]
      = (errResp "Game update failed" 500, dbEmpty)
    ∧ ¬ ((edit_game_handler dbEmpty "0123456789abcdef01234567" true
          [("title", .jstr "X")]).1.status = 404) := by
  exact ⟨rfl, by decide⟩

/-- C5 amended: updating an absent (well-formed) id with at least one
whitelisted field, and a shape-valid developer_hq when one is supplied,
fails with ServerError 500 "Game update failed" — the handler cannot
distinguish an absent id from a vacuous update — and the database is
unchanged; it does not answer NotFound. -/
theorem C5_update_absent_id (s : DBState) (id : String) (data : List (String × JVal))
    (hid : objectId_is_valid id = true)
    (habsent : s.games.find? (fun g => g.gid == id) = none)
    (hhq : ∀ hq, jlookup data "developer_hq" = some hq → validHqEdit hq = true)
    (hfields : collectUpdateFields data ≠ []) :
    edit_game_handler s id true data = (errResp "Game update failed" 500, s) := by
  have hne : (collectUpdateFields data).isEmpty = false := by
    cases h : collectUpdateFields data with
    | nil => exact absurd h hfields
    | cons a l => rfl
  have happ : ∀ (l : List (String × JVal)) (e : String × JVal), (l ++ [e]).isEmpty = false := by
    intro l e; cases l <;> rfl
  unfold edit_game_handler
  cases hd : jlookup data "developer_hq" with
  | none => simp [hid, hd, hne, habsent]
  | some hq => simp [hid, hd, hhq hq hd, happ, habsent]

/-- C5 witness: the amended statement at the counterexample's input. -/
theorem C5_update_absent_id_witness :
    edit_game_handler dbEmpty "0123456789abcdef01234567" true [("title", .jstr "Y")]
      = (errResp "Game update failed" 500, dbEmpty) :=
  C5_update_absent_id dbEmpty "0123456789abcdef01234567" [("title", .jstr "Y")]
    (by decide) rfl (fun hq h => by simp [jlookup] at h) (fun h => List.noConfusion h)

/-- C6 counterexample: get one game answers 404 for a malformed id, not
the BadRequest 400 the claim states for every identifier-taking route. -/
theorem C6_malformed_id_counterexample :
    show_one_game dbEmpty "not-a-valid-id" = errResp "Invalid Game ID format" 404
    ∧ ¬ ((show_one_game dbEmpty "not-a-valid-id").status = 400) := by
  exact ⟨rfl, by decide⟩

/-- C6 amended: a malformed identifier is rejected before any lookup with
BadRequest 400 by delete game, list reviews, get one review, edit review
and delete review; get one game alone answers 404 (same "Invalid Game ID
format" body). -/
theorem C6_malformed_ids (s : DBState) (c : Caller) (id gid rid : String)
    (pn ps : Option String) (data : List (String × JVal)) :
    (objectId_is_valid id = false →
      delete_game_handler s id = (errResp "Invalid Game ID format" 400, s)
        ∧ fetch_all_reviews s id pn ps = errResp "Invalid Game ID format" 400
        ∧ show_one_game s id = errResp "Invalid Game ID format" 404)
    ∧ (objectId_is_valid gid = false →
        fetch_one_review s gid rid = errResp "Invalid Game ID format" 400)
    ∧ (objectId_is_valid gid = true → objectId_is_valid rid = false →
        fetch_one_review s gid rid = errResp "Invalid Review ID format" 400)
    ∧ ((objectId_is_valid gid && objectId_is_valid rid) = false →
        edit_review_handler s c gid rid true data = (errResp "Invalid ID format" 400, s)
          ∧ delete_review_handler s c gid rid = (errResp "Invalid ID format" 400, s)) := by
  refine ⟨?_, ?_, ?_, ?_⟩
  · intro h
    exact ⟨by simp [delete_game_handler, h], by simp [fetch_all_reviews, h],
           by simp [show_one_game, h]⟩
  · intro h
    simp [fetch_one_review, h]
  · intro hg hr
    simp [fetch_one_review, hg, hr]
  · intro h
    have h2 : (!(objectId_is_valid gid) || !(objectId_is_valid rid)) = true := by
      cases hga : objectId_is_valid gid <;> cases hra : objectId_is_valid rid <;>
        simp_all
    exact ⟨by simp [edit_review_handler, h2], by simp [delete_review_handler, h2]⟩

/-- C6 witness: the amended statement's branches at a concrete malformed
id. -/
theorem C6_malformed_ids_witness :
    delete_game_handler dbEmpty "zzz" = (errResp "Invalid Game ID format" 400, dbEmpty)
    ∧ fetch_one_review dbEmpty "zzz" "bbbbbbbbbbbbbbbbbbbbbbbb"
        = errResp "Invalid Game ID format" 400
    ∧ show_one_game dbEmpty "zzz" = errResp "Invalid Game ID format" 404 :=
  ⟨((C6_malformed_ids dbEmpty callerB "zzz" "zzz" "zzz" none none []).1 (by decide)).1,
   (C6_malformed_ids dbEmpty callerB "zzz" "zzz" "bbbbbbbbbbbbbbbbbbbbbbbb" none none []).2.1
     (by decide),
   ((C6_malformed_ids dbEmpty callerB "zzz" "zzz" "zzz" none none []).1 (by decide)).2.2⟩

/-- C7: with every other precondition met (valid ids, JSON body, comment
and rating supplied, game and review present, caller authorized), add
review succeeds (201) and edit review succeeds (200) exactly when the
supplied rating converts to an integer between 1 and 10; a conversion
that raises ValueError answers 400 "Rating must be a number" and an
out-of-range integer answers 400 "Rating must be between 1 and 10". -/
theorem C7_rating_bounds (s : DBState) (c : Caller) (gid rid : String)
    (data : List (String × JVal)) (g : Game) (r : Review) (rv : JVal) (fresh : String)
    (hgid : objectId_is_valid gid = true) (hrid : objectId_is_valid rid = true)
    (hg : s.games.find? (fun g2 => g2.gid == gid) = some g)
    (hr : g.reviews.find? (fun r2 => r2.rid == rid) = some r)
    (hauth : (pyTruthy c.admin || r.user_id == c.user_id) = true)
    (hcomment : (jlookup data "comment").isSome = true)
    (hrating : jlookup data "rating" = some rv) :
    (((add_new_review_handler s c gid true data fresh).1.status = 201)
        ↔ ∃ n, pyToInt rv = .ok n ∧ 1 ≤ n ∧ n ≤ 10)
    ∧ (((edit_review_handler s c gid rid true data).1.status = 200)
        ↔ ∃ n, pyToInt rv = .ok n ∧ 1 ≤ n ∧ n ≤ 10)
    ∧ (pyToInt rv = .valueError →
        (add_new_review_handler s c gid true data fresh).1
            = errResp "Rating must be a number" 400
          ∧ (edit_review_handler s c gid rid true data).1
            = errResp "Rating must be a number" 400)
    ∧ (∀ n, pyToInt rv = .ok n → (n < 1 ∨ 10 < n) →
        (add_new_review_handler s c gid true data fresh).1
            = errResp "Rating must be between 1 and 10" 400
          ∧ (edit_review_handler s c gid rid true data).1
            = errResp "Rating must be between 1 and 10" 400) := by
  cases hp : pyToInt rv with
  | typeError =>
    have hA : (add_new_review_handler s c gid true data fresh).1 = crashResp := by
      unfold add_new_review_handler
      simp [hgid, hcomment, hrating, hp]
    have hE : (edit_review_handler s c gid rid true data).1 = crashResp := by
      unfold edit_review_handler
      simp [hgid, hrid, hg, hr, ownership_cond, hauth, hrating, hp]
    refine ⟨?_, ?_, ?_, ?_⟩
    · simp [hA, crashResp, hp]
    · simp [hE, crashResp, hp]
    · intro hv; simp at hv
    · intro n hv; simp at hv
  | valueError =>
    have hA : (add_new_review_handler s c gid true data fresh).1
        = errResp "Rating must be a number" 400 := by
      unfold add_new_review_handler
      simp [hgid, hcomment, hrating, hp]
    have hE : (edit_review_handler s c gid rid true data).1
        = errResp "Rating must be a number" 400 := by
      unfold edit_review_handler
      simp [hgid, hrid, hg, hr, ownership_cond, hauth, hrating, hp]
    refine ⟨?_, ?_, ?_, ?_⟩
    · simp [hA, errResp, hp]
    · simp [hE, errResp, hp]
    · intro hv; exact ⟨hA, hE⟩
    · intro n hv; simp at hv
  | ok n =>
    by_cases hor : n < 1 ∨ 10 < n
    · have hb : (decide (n < 1) || decide (n > 10)) = true := by
        rcases hor with h | h <;> simp [h]
      have hA : (add_new_review_handler s c gid true data fresh).1
          = errResp "Rating must be between 1 and 10" 400 := by
        unfold add_new_review_handler
        simp [hgid, hcomment, hrating, hp, hb]
      have hE : (edit_review_handler s c gid rid true data).1
          = errResp "Rating must be between 1 and 10" 400 := by
        unfold edit_review_handler
        simp [hgid, hrid, hg, hr, ownership_cond, hauth, hrating, hp, hb]
      refine ⟨?_, ?_, ?_, ?_⟩
      · rw [hA]; simp [errResp, hp]; omega
      · rw [hE]; simp [errResp, hp]; omega
      · intro hv; simp at hv
      · intro n2 hv hor2; exact ⟨hA, hE⟩
    · push_neg at hor
      have hb : (decide (n < 1) || decide (n > 10)) = false := by
        simp; omega
      have hA : (add_new_review_handler s c gid true data fresh).1
          = msgResp "Review added successfully" 201 := by
        unfold add_new_review_handler
        simp [hgid, hcomment, hrating, hp, hb, hg]
      have hE : (edit_review_handler s c gid rid true data).1
          = msgResp "Review updated successfully" 200 := by
        unfold edit_review_handler
        simp [hgid, hrid, hg, hr, ownership_cond, hauth, hrating, hp, hb]
      refine ⟨?_, ?_, ?_, ?_⟩
      · rw [hA]; simp [msgResp, hp]; omega
      · rw [hE]; simp [msgResp, hp]; omega
      · intro hv; simp at hv
      · intro n2 hv hor2
        injection hv with hnn
        subst hnn
        omega

/-- The owner of reviewW as a non-admin caller. -/
def callerA : Caller :=
  { user_id := some (.jstr "u1"), username := some (.jstr "alice"), admin := .jbool false }

/-- C7 witness: rating 5 succeeds; ratings 0 and 11 fail the range check;
rating "abc" fails the conversion — each with the stated 400 bodies. -/
theorem C7_rating_bounds_witness :
    ((add_new_review_handler dbW callerA "aaaaaaaaaaaaaaaaaaaaaaaa" true
        [("comment", .jstr "ok"), ("rating", .jint 5)] "cccccccccccccccccccccccc").1.status = 201)
    ∧ ((add_new_review_handler dbW callerA "aaaaaaaaaaaaaaaaaaaaaaaa" true
        [("comment", .jstr "ok"), ("rating", .jint 0)] "cccccccccccccccccccccccc").1
        = errResp "Rating must be between 1 and 10" 400)
    ∧ ((add_new_review_handler dbW callerA "aaaaaaaaaaaaaaaaaaaaaaaa" true
        [("comment", .jstr "ok"), ("rating", .jint 11)] "cccccccccccccccccccccccc").1
        = errResp "Rating must be between 1 and 10" 400)
    ∧ ((edit_review_handler dbW callerA "aaaaaaaaaaaaaaaaaaaaaaaa" "bbbbbbbbbbbbbbbbbbbbbbbb" true
        [("comment", .jstr "ok"), ("rating", .jstr "abc")]).1
        = errResp "Rating must be a number" 400) :=
  ⟨(C7_rating_bounds dbW callerA "aaaaaaaaaaaaaaaaaaaaaaaa" "bbbbbbbbbbbbbbbbbbbbbbbb"
      [("comment", .jstr "ok"), ("rating", .jint 5)] gameW reviewW (.jint 5)
      "cccccccccccccccccccccccc" (by decide) (by decide) rfl rfl (by decide) rfl rfl).1.mpr
      ⟨5, rfl, by decide, by decide⟩,
   ((C7_rating_bounds dbW callerA "aaaaaaaaaaaaaaaaaaaaaaaa" "bbbbbbbbbbbbbbbbbbbbbbbb"
      [("comment", .jstr "ok"), ("rating", .jint 0)] gameW reviewW (.jint 0)
      "cccccccccccccccccccccccc" (by decide) (by decide) rfl rfl (by decide) rfl rfl).2.2.2
      0 rfl (Or.inl (by decide))).1,
   ((C7_rating_bounds dbW callerA "aaaaaaaaaaaaaaaaaaaaaaaa" "bbbbbbbbbbbbbbbbbbbbbbbb"
      [("comment", .jstr "ok"), ("rating", .jint 11)] gameW reviewW (.jint 11)
      "cccccccccccccccccccccccc" (by decide) (by decide) rfl rfl (by decide) rfl rfl).2.2.2
      11 rfl (Or.inr (by decide))).1,
   ((C7_rating_bounds dbW callerA "aaaaaaaaaaaaaaaaaaaaaaaa" "bbbbbbbbbbbbbbbbbbbbbbbb"
      [("comment", .jstr "ok"), ("rating", .jstr "abc")] gameW reviewW (.jstr "abc")
      "cccccccccccccccccccccccc" (by decide) (by decide) rfl rfl (by decide) rfl rfl).2.2.1
      (by decide)).2⟩

/-- find? skips a prefix in which nothing matches. -/
theorem find?_append_of_none {α : Type} (p : α → Bool) (l1 l2 : List α)
    (h : l1.find? p = none) : (l1 ++ l2).find? p = l2.find? p := by
  induction l1 with
  | nil => rfl
  | cons a l ih =>
    rw [List.find?] at h
    rw [List.cons_append, List.find?]
    cases hp : p a with
    | true => rw [hp] at h; simp at h
    | false =>
      rw [hp] at h
      simp only [hp]
      exact ih h

/-- A value passing the create-side GeoJSON check is a nonempty dict,
hence truthy: the `if hq:` guard cannot drop a well-formed point. -/
theorem validHq_truthy (v : JVal) (h : validHqCreate v = true) : pyTruthy v = true := by
  cases v with
  | jdict fs =>
    cases fs with
    | nil => simp [validHqCreate, jlookup] at h
    | cons a l => rfl
  | jnull => simp [validHqCreate] at h
  | jbool b => simp [validHqCreate] at h
  | jint n => simp [validHqCreate] at h
  | jstr t => simp [validHqCreate] at h
  | jlist xs => simp [validHqCreate] at h

/-- A create payload made of exactly the recognized fields: the eight
required ones plus the optional rating and developer_hq. -/
structure CreateFields where
  title : JVal
  platforms : JVal
  release_year : JVal
  developer : JVal
  publisher : JVal
  esrb : JVal
  genres : JVal
  modes : JVal
  rating : Option JVal
  developer_hq : Option JVal

/-- The JSON payload carrying exactly the fields of F. -/
def CreateFields.payload (F : CreateFields) : List (String × JVal) :=
  [("title", F.title), ("platforms", F.platforms), ("release_year", F.release_year),
   ("developer", F.developer), ("publisher", F.publisher), ("esrb", F.esrb),
   ("genres", F.genres), ("modes", F.modes)]
  ++ (match F.rating with | some v => [("rating", v)] | none => [])
  ++ (match F.developer_hq with | some v => [("developer_hq", v)] | none => [])

/-- The document the create handler stores for F: the supplied fields in
new_game order, with rating present even when F omitted it (null). -/
def CreateFields.storedFields (F : CreateFields) : List (String × JVal) :=
  [("title", F.title), ("platforms", F.platforms), ("release_year", F.release_year),
   ("developer", F.developer), ("publisher", F.publisher),
   ("rating", F.rating.getD .jnull),
   ("esrb", F.esrb), ("genres", F.genres), ("modes", F.modes)]
  ++ (match F.developer_hq with | some v => [("developer_hq", v)] | none => [])

/-- The key set of a JSON object. -/
def jkeys : JVal → List String
  | .jdict fs => fs.map Prod.fst
  | _ => []

/-- C8 amended: create with a recognized field set F (fresh valid id,
unused title, well-formed developer_hq when present) answers 201 with the
new id and stores exactly F's fields plus a rating key (null when F has
none) and empty reviews and awards; get on that id then returns exactly
that document with its string _id — no other fields. -/
theorem C8_create_get_roundtrip (s : DBState) (F : CreateFields) (fid : String)
    (hfid : objectId_is_valid fid = true)
    (hfresh : s.games.find? (fun g => g.gid == fid) = none)
    (htitle : titleTaken s F.title = false)
    (hhq : ∀ v, F.developer_hq = some v → validHqCreate v = true) :
    add_new_game_handler s true F.payload fid
      = ({ body := .jdict [("message", .jstr "Game added successfully"),
                           ("game_id", .jstr fid)], status := 201 },
         { s with games := s.games ++ [{ gid := fid, fields := F.storedFields,
                                         reviews := [], awards := [] }] })
    ∧ show_one_game { s with games := s.games ++ [{ gid := fid, fields := F.storedFields,
                                                    reviews := [], awards := [] }] } fid
      = { body := .jdict (("_id", .jstr fid) :: (F.storedFields
            ++ [("reviews", .jlist []), ("awards", .jlist [])])), status := 200 } := by
  constructor
  · cases hhqv : F.developer_hq with
    | none =>
      cases hrat : F.rating with
      | none =>
        unfold add_new_game_handler
        simp [CreateFields.payload, CreateFields.storedFields, newGameFields,
          requiredGameFields, jlookup, hhqv, hrat, htitle]
      | some rv =>
        unfold add_new_game_handler
        simp [CreateFields.payload, CreateFields.storedFields, newGameFields,
          requiredGameFields, jlookup, hhqv, hrat, htitle]
    | some v =>
      have hv := hhq v hhqv
      have hvt := validHq_truthy v hv
      cases hrat : F.rating with
      | none =>
        unfold add_new_game_handler
        simp [CreateFields.payload, CreateFields.storedFields, newGameFields,
          requiredGameFields, jlookup, hhqv, hrat, htitle, hv, hvt]
      | some rv =>
        unfold add_new_game_handler
        simp [CreateFields.payload, CreateFields.storedFields, newGameFields,
          requiredGameFields, jlookup, hhqv, hrat, htitle, hv, hvt]
  · unfold show_one_game
    rw [hfid]
    have hfind : (List.find? (fun g => g.gid == fid)
        (s.games ++ [show Game from { gid := fid, fields := F.storedFields, reviews := [], awards := [] }]))
        = some (show Game from { gid := fid, fields := F.storedFields, reviews := [], awards := [] }) := by
      rw [find?_append_of_none _ _ _ hfresh]
      simp [List.find?]
    simp [hfind, gameToJson]

/-- A create payload with all eight required fields and nothing else. -/
def payload0 : List (String × JVal) :=
  [("title", .jstr "Halo"), ("platforms", .jlist [.jstr "PC"]),
   ("release_year", .jint 2001), ("developer", .jstr "Bungie"),
   ("publisher", .jstr "MS"), ("esrb", .jstr "M"),
   ("genres", .jlist [.jstr "FPS"]), ("modes", .jlist [.jstr "solo"])]

/-- C8 counterexample: creating from a payload that does not mention
rating and reading the game back yields a body with a rating key, which
is neither a supplied field nor the id/reviews/awards the claim allows. -/
theorem C8_roundtrip_counterexample :
    ((jkeys ((show_one_game (add_new_game_handler dbEmpty true payload0
          "0123456789abcdef01234567").2 "0123456789abcdef01234567").body)).contains
        "rating" = true)
    ∧ ((payload0.map Prod.fst).contains "rating" = false)
    ∧ (["_id", "reviews", "awards"].contains "rating" = false) := by
  exact ⟨rfl, rfl, rfl⟩

/-- The payload0 fields as a recognized create field set. -/
def fields0 : CreateFields :=
  { title := .jstr "Halo", platforms := .jlist [.jstr "PC"],
    release_year := .jint 2001, developer := .jstr "Bungie",
    publisher := .jstr "MS", esrb := .jstr "M",
    genres := .jlist [.jstr "FPS"], modes := .jlist [.jstr "solo"],
    rating := none, developer_hq := none }

/-- C8 witness: the amended round trip at fields0 on an empty database. -/
theorem C8_create_get_roundtrip_witness :
    show_one_game (add_new_game_handler dbEmpty true fields0.payload
        "0123456789abcdef01234567").2 "0123456789abcdef01234567"
      = { body := .jdict (("_id", .jstr "0123456789abcdef01234567")
            :: (fields0.storedFields ++ [("reviews", .jlist []), ("awards", .jlist [])])),
          status := 200 } := by
  have h := C8_create_get_roundtrip dbEmpty fields0 "0123456789abcdef01234567"
    (by decide) rfl (by decide) (fun v hv => Option.noConfusion hv)
  rw [h.1]
  exact h.2

/-- C9 counterexample: create accepts a payload whose developer_hq is the
malformed (falsy) empty object: it answers 201 and inserts the game,
instead of the BadRequest-and-no-insert the claim states. -/
theorem C9_geo_validation_counterexample :
    ((add_new_game_handler dbEmpty true (payload0 ++ [("developer_hq", .jdict [])])
        "0123456789abcdef01234567").1.status = 201)
    ∧ ((add_new_game_handler dbEmpty true (payload0 ++ [("developer_hq", .jdict [])])
        "0123456789abcdef01234567").2.games ≠ [])
    ∧ validHqCreate (.jdict []) = false := by
  refine ⟨rfl, fun h => List.noConfusion h, rfl⟩

/-- C9 amended: create rejects (400, nothing inserted) exactly the truthy
malformed developer_hq values and silently drops falsy ones (null, 0,
empty string/list/object, false), inserting the game without the field;
update rejects (400, nothing modified) the values failing its weaker
shape check, which does not test that the two coordinates are numeric. -/
theorem C9_geo_validation (s : DBState) (id fid : String)
    (data : List (String × JVal)) (hq : JVal) :
    (jlookup data "developer_hq" = some hq → pyTruthy hq = true →
      validHqCreate hq = false →
      (requiredGameFields.all (fun f => (jlookup data f).isSome)) = true →
      titleTaken s ((jlookup data "title").getD .jnull) = false →
      add_new_game_handler s true data fid
        = (errResp "Invalid GeoJSON format for developer_hq" 400, s))
    ∧ (jlookup data "developer_hq" = some hq → pyTruthy hq = false →
      (requiredGameFields.all (fun f => (jlookup data f).isSome)) = true →
      titleTaken s ((jlookup data "title").getD .jnull) = false →
      add_new_game_handler s true data fid
        = ({ body := .jdict [("message", .jstr "Game added successfully"),
                             ("game_id", .jstr fid)], status := 201 },
           { s with games := s.games ++ [{ gid := fid, fields := newGameFields data,
                                           reviews := [], awards := [] }] }))
    ∧ (jlookup (newGameFields data) "developer_hq" = none)
    ∧ (objectId_is_valid id = true → jlookup data "developer_hq" = some hq →
      validHqEdit hq = false →
      edit_game_handler s id true data = (errResp "Invalid GeoJSON format" 400, s))
    ∧ (validHqEdit (.jdict [("type", .jstr "Point"),
          ("coordinates", .jlist [.jstr "a", .jstr "b"])]) = true
        ∧ validHqCreate (.jdict [("type", .jstr "Point"),
            ("coordinates", .jlist [.jstr "a", .jstr "b"])]) = false) := by
  refine ⟨?_, ?_, ?_, ?_, rfl, rfl⟩
  · intro hhq htr hbad hreq htitle
    unfold add_new_game_handler
    simp [hreq, htitle, hhq, htr, hbad]
  · intro hhq htr hreq htitle
    unfold add_new_game_handler
    simp [hreq, htitle, hhq, htr]
  · simp [newGameFields, jlookup]
  · intro hid hhq hbad
    unfold edit_game_handler
    simp [hid, hhq, hbad]

/-- C9 witness: a truthy malformed create payload is rejected with 400
and nothing inserted; an update payload failing the edit shape check is
rejected with 400 and nothing modified. -/
theorem C9_geo_validation_witness :
    (add_new_game_handler dbEmpty true
        (payload0 ++ [("developer_hq", .jdict [("type", .jstr "Square")])])
        "0123456789abcdef01234567"
      = (errResp "Invalid GeoJSON format for developer_hq" 400, dbEmpty))
    ∧ (edit_game_handler dbW "aaaaaaaaaaaaaaaaaaaaaaaa" true [("developer_hq", .jstr "x")]
      = (errResp "Invalid GeoJSON format" 400, dbW)) :=
  ⟨(C9_geo_validation dbEmpty "aaaaaaaaaaaaaaaaaaaaaaaa" "0123456789abcdef01234567"
      (payload0 ++ [("developer_hq", JVal.jdict [("type", JVal.jstr "Square")])])
      (JVal.jdict [("type", JVal.jstr "Square")])).1 (by rfl) rfl rfl rfl rfl,
   (C9_geo_validation dbW "aaaaaaaaaaaaaaaaaaaaaaaa" "0123456789abcdef01234567"
      [("developer_hq", JVal.jstr "x")] (JVal.jstr "x")).2.2.2.1 (by decide) (by rfl) rfl⟩

/-- C10: once edit review's prechecks pass (ids, game, review, ownership,
field validation) the handler answers 200 "Review updated successfully"
unconditionally — the storage update's result is never inspected, so a
vacuous update still reports success — while delete review's tail maps
any modified count other than 1 to ServerError 500 "Delete failed". -/
theorem C10_edit_success_unconditional (s : DBState) (c : Caller) (gid rid : String)
    (data : List (String × JVal)) (g : Game) (r : Review)
    (hgid : objectId_is_valid gid = true) (hrid : objectId_is_valid rid = true)
    (hg : s.games.find? (fun g2 => g2.gid == gid) = some g)
    (hr : g.reviews.find? (fun r2 => r2.rid == rid) = some r)
    (hauth : (pyTruthy c.admin || r.user_id == c.user_id) = true)
    (hfield : (jlookup data "comment").isSome = true
      ∨ ∃ rv, jlookup data "rating" = some rv)
    (hratingok : ∀ rv, jlookup data "rating" = some rv →
      ∃ n, pyToInt rv = .ok n ∧ 1 ≤ n ∧ n ≤ 10) :
    ((edit_review_handler s c gid rid true data).1
      = msgResp "Review updated successfully" 200)
    ∧ (∀ m, m ≠ 1 → delete_finish m = errResp "Delete failed" 500)
    ∧ delete_finish 1 = msgResp "Review deleted successfully" 200 := by
  refine ⟨?_, ?_, rfl⟩
  · cases hrat : jlookup data "rating" with
    | none =>
      rcases hfield with hcm | ⟨rv, hrv⟩
      · cases hc : jlookup data "comment" with
        | none => rw [hc] at hcm; simp at hcm
        | some cv =>
          unfold edit_review_handler
          simp [hgid, hrid, hg, hr, ownership_cond, hauth, hrat, hc]
      · rw [hrat] at hrv; exact Option.noConfusion hrv
    | some rv =>
      rcases hratingok rv hrat with ⟨n, hok, h1, h2⟩
      have hb : (decide (n < 1) || decide (n > 10)) = false := by simp; omega
      unfold edit_review_handler
      simp [hgid, hrid, hg, hr, ownership_cond, hauth, hrat, hok, hb]
  · intro m hm
    have hbm : (m == 1) = false := by simp [hm]
    simp [delete_finish, hbm]

/-- C10 witness: an edit writing the comment value already stored (the
storage update matches but modifies nothing) still answers 200, and
delete_finish maps modified count 0 to the 500 "Delete failed" error. -/
theorem C10_edit_success_unconditional_witness :
    ((edit_review_handler dbW callerA "aaaaaaaaaaaaaaaaaaaaaaaa" "bbbbbbbbbbbbbbbbbbbbbbbb"
        true [("comment", .jstr "fun")]).1 = msgResp "Review updated successfully" 200)
    ∧ delete_finish 0 = errResp "Delete failed" 500 :=
  ⟨(C10_edit_success_unconditional dbW callerA "aaaaaaaaaaaaaaaaaaaaaaaa"
      "bbbbbbbbbbbbbbbbbbbbbbbb" [("comment", .jstr "fun")] gameW reviewW
      (by decide) (by decide) rfl rfl (by decide) (Or.inl rfl)
      (fun rv h => Option.noConfusion h)).1,
   (C10_edit_success_unconditional dbW callerA "aaaaaaaaaaaaaaaaaaaaaaaa"
      "bbbbbbbbbbbbbbbbbbbbbbbb" [("comment", .jstr "fun")] gameW reviewW
      (by decide) (by decide) rfl rfl (by decide) (Or.inl rfl)
      (fun rv h => Option.noConfusion h)).2.1 0 (by decide)⟩
